import Mathlib

/-!
Verification of the core simulation logic of the commit-dash infinite runner.

The repository ships two near-identical variants of the game scene:
  * variant A: `src/game.js`
  * variant B: `src/unnamed/part_000` (adds charge jumps, difficulty scaling
    and a full penetration-based collision resolver)

This file gives a shallow embedding of the parts of both variants relevant
to the frozen claims: the RNG-driven column generator, the jump/charge input
state machine, the grounding/collision resolver, the scroll/score loop and
the restart logic.  Continuous quantities (positions, velocities, times,
score) are modelled as rationals; the host RNG is modelled as a list of
natural-number draws, each draw mapped into the requested inclusive range.
-/

namespace CommitDash

/-! ## Configuration constants (GRID / GAME_CONFIG in both variants) -/

def TILE_SIZE : ℚ := 13
def GAP : ℚ := 2
def ROWS : ℕ := 7
def TILE_FULL_SIZE : ℚ := 15

def SCROLL_SPEED : ℚ := 120
def JUMP_VELOCITY : ℚ := -400
def GRAVITY : ℚ := 1000
def PLAYER_START_X : ℚ := 150
def GAME_OVER_BOUNDARY : ℚ := -TILE_SIZE
def JUMP_CHARGE_MAX : ℚ := 100
def JUMP_CHARGE_COST : ℚ := 50
def JUMP_CHARGE_RATE : ℚ := 25

/- part_000 (variant B) additions. -/
def CHARGE_JUMP_MAX_TIME : ℚ := 3/2
def CHARGE_JUMP_MIN_VELOCITY : ℚ := -400
def CHARGE_JUMP_MAX_VELOCITY : ℚ := -700
def CHARGE_JUMP_HORIZONTAL_VELOCITY : ℚ := 150
def CHARGE_JUMP_SQUASH_HEIGHT : ℚ := 1/10

/- Screen dimensions from the Phaser config (width 800, height 300);
`cameras.main.centerY` is 150. -/
def SCREEN_WIDTH : ℚ := 800
def SCREEN_HEIGHT : ℚ := 300
def CENTER_Y : ℚ := 150

/-! ## RNG model

`Phaser.Math.Between(lo, hi)` returns a uniform integer in `[lo, hi]`.
We model the RNG as a list of natural draws; each call consumes the head
(default 0) and maps it into the range with a modulus, so every value of the
range is reachable by a suitable draw. -/

def between (lo hi n : ℕ) : ℕ := lo + n % (hi + 1 - lo)

def draw1 (draws : List ℕ) : ℕ × List ℕ := (draws.headD 0, draws.tail)

/-! ## Column generator, variant A (`game.js`, `generateColumn`) -/

structure GenStateA where
  consecutiveEmptyColumns : ℕ
  totalColumnsGenerated : ℕ
  patternColumnsRemaining : ℕ
  patternHeight : ℕ
deriving DecidableEq, Repr

def initGenStateA : GenStateA :=
  { consecutiveEmptyColumns := 0, totalColumnsGenerated := 0,
    patternColumnsRemaining := 0, patternHeight := 0 }

/-- Height-selection logic of `generateColumn` in `game.js` (lines 248-291).
Returns the generated height, the updated generation state and the remaining
draws. -/
def generateColumnA (s : GenStateA) (draws : List ℕ) : ℕ × GenStateA × List ℕ :=
  if s.totalColumnsGenerated < 30 then
    -- first 30 columns are full height for smooth start
    (7, { s with totalColumnsGenerated := s.totalColumnsGenerated + 1 }, draws)
  else if 0 < s.patternColumnsRemaining then
    -- in a pattern of same-height columns
    (s.patternHeight,
     { s with patternColumnsRemaining := s.patternColumnsRemaining - 1,
              totalColumnsGenerated := s.totalColumnsGenerated + 1 }, draws)
  else
    let d₀ := (draw1 draws).2
    let h₀ := between 0 7 (draw1 draws).1
    -- enforce rule: no more than 2 consecutive empty columns
    let ecd : ℕ × ℕ × List ℕ :=
      if h₀ = 0 then
        if 2 < s.consecutiveEmptyColumns + 1 then
          (between 1 7 (draw1 d₀).1, 0, (draw1 d₀).2)
        else (h₀, s.consecutiveEmptyColumns + 1, d₀)
      else (h₀, 0, d₀)
    let h₁ := ecd.1
    -- randomly create patterns of same-height columns
    let patternChance := between 1 15 (draw1 ecd.2.2).1
    let php : ℕ × ℕ :=
      if patternChance ≤ 5 then (h₁, 1)
      else if patternChance = 15 then (h₁, 2)
      else (s.patternHeight, 0)
    (h₁, { consecutiveEmptyColumns := ecd.2.1
           totalColumnsGenerated := s.totalColumnsGenerated + 1
           patternColumnsRemaining := php.2
           patternHeight := php.1 }, (draw1 ecd.2.2).2)

/-! ## Column generator, variant B (`part_000`, `generateColumn`) -/

structure GenState where
  consecutiveEmptyColumns : ℕ
  totalColumnsGenerated : ℕ
  patternColumnsRemaining : ℕ
  patternHeight : ℕ
  previousColumnHeight : ℕ
deriving DecidableEq, Repr

def initGenState : GenState :=
  { consecutiveEmptyColumns := 0, totalColumnsGenerated := 0,
    patternColumnsRemaining := 0, patternHeight := 0,
    previousColumnHeight := 7 }

/-- `Math.max(0, Math.min(7, prev - maxDiff, prev + maxDiff))`, computed over ℤ
as in JS and brought back to ℕ (the max with 0 makes the result non-negative). -/
def clampHeight (prev maxDiff : ℕ) : ℕ :=
  (max 0 (min (min 7 ((prev : ℤ) - maxDiff)) ((prev : ℤ) + maxDiff))).toNat

/-- The bounded do-while retry loop of variant B's `generateColumn`
(lines 310-324): draw heights until one is within `maxDiff` of `prev`;
after more than 10 attempts fall back to the clamped value. -/
def heightAttempts (prev maxDiff attempts : ℕ) (draws : List ℕ) : ℕ × List ℕ :=
  let d := (draw1 draws).2
  let h := between 0 7 (draw1 draws).1
  if h10 : 10 < attempts + 1 then (clampHeight prev maxDiff, d)
  else if maxDiff < (((h : ℤ) - prev).natAbs) then
    heightAttempts prev maxDiff (attempts + 1) d
  else (h, d)
termination_by 11 - attempts
decreasing_by simp_wf; omega

/-- `Math.floor(score / 200)`; the score is non-negative in every reachable
session state, so taking `toNat` is faithful. -/
def difficultyLevel (score : ℚ) : ℕ := (⌊score / 200⌋).toNat

/-- Height-selection logic of `generateColumn` in `part_000` (lines 287-360),
with difficulty scaling from the current score. -/
def generateColumnB (score : ℚ) (s : GenState) (draws : List ℕ) :
    ℕ × GenState × List ℕ :=
  let maxHeightDiff := 2 + difficultyLevel score
  let patternMaxFreq := 12 + difficultyLevel score * 2
  if s.totalColumnsGenerated < 30 then
    (7, { s with previousColumnHeight := 7,
                 totalColumnsGenerated := s.totalColumnsGenerated + 1 }, draws)
  else if 0 < s.patternColumnsRemaining then
    (s.patternHeight,
     { s with patternColumnsRemaining := s.patternColumnsRemaining - 1,
              previousColumnHeight := s.patternHeight,
              totalColumnsGenerated := s.totalColumnsGenerated + 1 }, draws)
  else
    let hd := heightAttempts s.previousColumnHeight maxHeightDiff 0 draws
    let h₀ := hd.1
    let d₀ := hd.2
    -- enforce rule: no more than 2 consecutive empty columns
    let ecd : ℕ × ℕ × List ℕ :=
      if h₀ = 0 then
        if 2 < s.consecutiveEmptyColumns + 1 then
          (between 1 (min 7 (s.previousColumnHeight + maxHeightDiff)) (draw1 d₀).1,
           0, (draw1 d₀).2)
        else (h₀, s.consecutiveEmptyColumns + 1, d₀)
      else (h₀, 0, d₀)
    let h₁ := ecd.1
    -- mandatory pattern of at least 2 equal columns, randomly extended
    let patternChance := between 1 patternMaxFreq (draw1 ecd.2.2).1
    let pr : ℕ :=
      if patternChance ≤ 3 then 2
      else if patternChance = patternMaxFreq then 3
      else 1
    (h₁, { consecutiveEmptyColumns := ecd.2.1
           totalColumnsGenerated := s.totalColumnsGenerated + 1
           patternColumnsRemaining := pr
           patternHeight := h₁
           previousColumnHeight := h₁ }, (draw1 ecd.2.2).2)

/-! ## Generation runs -/

/-- Heights of `n` successive columns generated by variant A. -/
def runA (s : GenStateA) (draws : List ℕ) : ℕ → List ℕ
  | 0 => []
  | n + 1 =>
    let r := generateColumnA s draws
    r.1 :: runA r.2.1 r.2.2 n

/-- Heights of `n` successive columns generated by variant B; `scores` supplies
the score at each generation step (difficulty input). -/
def runB (scores : List ℚ) (s : GenState) (draws : List ℕ) : ℕ → List ℕ
  | 0 => []
  | n + 1 =>
    let r := generateColumnB (scores.headD 0) s draws
    r.1 :: runB scores.tail r.2.1 r.2.2 n

/-! ## The page-load fill: generation with uninitialized counters

In both variants `create()` calls `generateInitialColumns()` (game.js 84,
part_000 100) BEFORE assigning `consecutiveEmptyColumns`, `lastColumnX`,
`totalColumnsGenerated`, `patternColumnsRemaining`, `patternHeight` and (in
variant B) `previousColumnHeight` (game.js 165-175, part_000 201-214).  The
initial fill therefore runs with those fields `undefined`, with JS
semantics:

* `undefined < 30` and `NaN < 30` are `false`, so the ramp branch is never
  taken during the fill; `undefined++` is `NaN` and stays `NaN`, so the
  counter never becomes numeric during the fill.
* `undefined > 0` is `false`, so `patternColumnsRemaining` behaves exactly
  like 0 until first assigned (and `patternHeight` is only read once
  `patternColumnsRemaining > 0`, which requires a prior assignment of both
  fields); both are modelled as ℕ starting at 0.
* `this.consecutiveEmptyColumns++` on `undefined` yields `NaN`; `NaN > 2`
  is `false`, so the forced redraw cannot fire, and `NaN++` stays `NaN`.
  Only the else-branch assignment `= 0` on a nonzero height makes the
  counter numeric.  Modelled as `Option ℕ`, `none` for undefined/NaN.
* Variant B: `Math.abs(height - undefined)` is `NaN`, and `NaN > maxDiff`
  is `false`, so the retry loop accepts its first draw while
  `previousColumnHeight` is undefined (only ever the first fill column:
  every branch ends with a numeric assignment to it).  Modelled as
  `Option ℕ` with `none` for undefined.

Only `restartGame` resets these fields BEFORE its fill, so only the restart
fill is ramped; the generators below model the page-load fill. -/

structure FillStateA where
  consecutiveEmptyColumns : Option ℕ
  patternColumnsRemaining : ℕ
  patternHeight : ℕ
deriving DecidableEq, Repr

/-- All fill-relevant fields undefined at the start of `create()` (variant A). -/
def initFillStateA : FillStateA :=
  { consecutiveEmptyColumns := none, patternColumnsRemaining := 0,
    patternHeight := 0 }

/-- Variant A's `generateColumn` (game.js 248-291) as executed during the
page-load fill: `totalColumnsGenerated` is undefined/NaN throughout, so the
`< 30` ramp branch is dead and the counter need not be tracked. -/
def generateColumnAFill (s : FillStateA) (draws : List ℕ) :
    ℕ × FillStateA × List ℕ :=
  if 0 < s.patternColumnsRemaining then
    (s.patternHeight,
     { s with patternColumnsRemaining := s.patternColumnsRemaining - 1 }, draws)
  else
    let d₀ := (draw1 draws).2
    let h₀ := between 0 7 (draw1 draws).1
    -- the empty-run rule under an undefined/NaN counter: the redraw fires
    -- only once the counter is numeric
    let ecd : ℕ × Option ℕ × List ℕ :=
      if h₀ = 0 then
        match s.consecutiveEmptyColumns with
        | none => (h₀, none, d₀)
        | some c =>
          if 2 < c + 1 then (between 1 7 (draw1 d₀).1, some 0, (draw1 d₀).2)
          else (h₀, some (c + 1), d₀)
      else (h₀, some 0, d₀)
    let h₁ := ecd.1
    let patternChance := between 1 15 (draw1 ecd.2.2).1
    let php : ℕ × ℕ :=
      if patternChance ≤ 5 then (h₁, 1)
      else if patternChance = 15 then (h₁, 2)
      else (s.patternHeight, 0)
    (h₁, { consecutiveEmptyColumns := ecd.2.1
           patternColumnsRemaining := php.2
           patternHeight := php.1 }, (draw1 ecd.2.2).2)

structure FillState where
  consecutiveEmptyColumns : Option ℕ
  patternColumnsRemaining : ℕ
  patternHeight : ℕ
  previousColumnHeight : Option ℕ
deriving DecidableEq, Repr

/-- All fill-relevant fields undefined at the start of `create()` (variant B). -/
def initFillState : FillState :=
  { consecutiveEmptyColumns := none, patternColumnsRemaining := 0,
    patternHeight := 0, previousColumnHeight := none }

/-- Variant B's `generateColumn` (part_000 287-360) as executed during the
page-load fill.  The score is 0 for the whole fill (`this.score = 0` runs
before the fill), but is kept as a parameter to mirror the source.  In the
forced-redraw branch the counter is numeric, which needs at least two prior
columns, so `previousColumnHeight` is numeric there too; the `getD 0`
placeholder for its unreachable `none` case is never exercised. -/
def generateColumnBFill (score : ℚ) (s : FillState) (draws : List ℕ) :
    ℕ × FillState × List ℕ :=
  let maxHeightDiff := 2 + difficultyLevel score
  let patternMaxFreq := 12 + difficultyLevel score * 2
  if 0 < s.patternColumnsRemaining then
    (s.patternHeight,
     { s with patternColumnsRemaining := s.patternColumnsRemaining - 1,
              previousColumnHeight := some s.patternHeight }, draws)
  else
    -- retry loop: while previousColumnHeight is undefined the NaN
    -- comparison is false and the first draw is accepted
    let hd : ℕ × List ℕ :=
      match s.previousColumnHeight with
      | none => (between 0 7 (draw1 draws).1, (draw1 draws).2)
      | some p => heightAttempts p maxHeightDiff 0 draws
    let h₀ := hd.1
    let d₀ := hd.2
    let ecd : ℕ × Option ℕ × List ℕ :=
      if h₀ = 0 then
        match s.consecutiveEmptyColumns with
        | none => (h₀, none, d₀)
        | some c =>
          if 2 < c + 1 then
            (between 1 (min 7 (s.previousColumnHeight.getD 0 + maxHeightDiff))
               (draw1 d₀).1, some 0, (draw1 d₀).2)
          else (h₀, some (c + 1), d₀)
      else (h₀, some 0, d₀)
    let h₁ := ecd.1
    -- mandatory pattern of at least 2 equal columns, randomly extended
    let patternChance := between 1 patternMaxFreq (draw1 ecd.2.2).1
    let pr : ℕ :=
      if patternChance ≤ 3 then 2
      else if patternChance = patternMaxFreq then 3
      else 1
    (h₁, { consecutiveEmptyColumns := ecd.2.1
           patternColumnsRemaining := pr
           patternHeight := h₁
           previousColumnHeight := some h₁ }, (draw1 ecd.2.2).2)

/-- Heights of `n` successive page-load fill columns, variant A. -/
def runAFill (s : FillStateA) (draws : List ℕ) : ℕ → List ℕ
  | 0 => []
  | n + 1 =>
    let r := generateColumnAFill s draws
    r.1 :: runAFill r.2.1 r.2.2 n

/-- Heights of `n` successive page-load fill columns, variant B. -/
def runBFill (score : ℚ) (s : FillState) (draws : List ℕ) : ℕ → List ℕ
  | 0 => []
  | n + 1 =>
    let r := generateColumnBFill score s draws
    r.1 :: runBFill score r.2.1 r.2.2 n

/-! ## Scene state (variant B, `part_000`)

Continuous quantities are rationals.  Rendering-only state (textures, tints,
text, the gray background tiles, which carry no physics) is not modelled.
`greenObstacles` is the authoritative collision list and is modelled as
`obstacles : List Obst` in creation order. -/

structure Obst where
  x : ℚ
  y : ℚ
deriving DecidableEq, Repr

structure Player where
  x : ℚ
  y : ℚ
  vx : ℚ
  vy : ℚ
  angle : ℚ
  displayH : ℚ
  targetRotation : ℚ
  isGrounded : Bool
  isRotating : Bool
  canDoubleJump : Bool
deriving DecidableEq, Repr

structure Scene where
  isGameOver : Bool
  score : ℚ
  worldX : ℚ
  jumpCharge : ℚ
  jumpsUsed : ℕ
  isChargingJump : Bool
  chargeJumpTime : ℚ
  jumpHoldStartTime : Option ℚ
  lastGroundedTime : ℚ
  jumpBufferTime : ℚ
  isSliding : Bool
  player : Player
  gen : GenState
  lastColumnX : ℚ
  obstacles : List Obst
deriving DecidableEq, Repr

def jumpBufferWindow : ℚ := 100

/-- Raw key edges/state for one tick (`justDown`/`justUp` are the Phaser
edge detectors for the space key; `isDown` is its level). -/
structure KeyInput where
  justDown : Bool
  justUp : Bool
  isDown : Bool
deriving DecidableEq, Repr

/-- Ghost instrumentation: which branch of `handleJump` fired this tick.
Each constructor corresponds to exactly one early return of the JS code. -/
inductive JEvent where
  | noEvent
  | slidingBlocked
  | squashTick
  | chargeLaunch (chargeFrac : ℚ)
  | doubleJump
  | groundJump
  | holdPrimed
  | chargingStarted
  | holdCleared
deriving DecidableEq, Repr

/-- `triggerGameOver` (part_000 lines 590-608): freeze player velocity and
mark the session over (high-score persistence is host-side). -/
def triggerGameOver (s : Scene) : Scene :=
  { s with isGameOver := true, player := { s.player with vx := 0, vy := 0 } }

/-! ### Collision & grounding resolver (`checkGrounded`, part_000 977-1069) -/

/-- One iteration of the obstacle loop.  The player bounds `pB/pL/pR/pT` were
computed once before the loop from the pre-loop position and are NOT refreshed
when a clamp moves the player mid-loop (faithful to the JS, which keeps stale
locals); the player's velocity IS read live.  Accumulator: current player,
standing flag, highest qualifying obstacle top. -/
def groundStep (pB pL pR pT : ℚ) (acc : Player × Bool × ℚ) (o : Obst) :
    Player × Bool × ℚ :=
  let p := acc.1
  let standing := acc.2.1
  let highestY := acc.2.2
  let oTop := o.y
  let oBottom := o.y + TILE_SIZE
  let oLeft := o.x
  let oRight := o.x + TILE_SIZE
  if (oLeft + 1 < pR ∧ pL < oRight - 1) ∧ (oTop + 1 < pB ∧ pT < oBottom - 1) then
    let overlapLeft := pR - oLeft
    let overlapRight := oRight - pL
    let overlapTop := pB - oTop
    let overlapBottom := oBottom - pT
    let minOverlap := min (min overlapLeft overlapRight) (min overlapTop overlapBottom)
    if minOverlap = overlapTop ∧ 0 ≤ p.vy then
      if oTop < highestY then (p, true, oTop) else (p, standing, highestY)
    else if minOverlap = overlapBottom ∧ p.vy ≤ 0 then
      ({ p with y := oBottom + TILE_SIZE / 2, vy := 0 }, standing, highestY)
    else if minOverlap = overlapLeft then
      ({ p with x := oLeft - TILE_SIZE / 2, vx := 0 }, standing, highestY)
    else if minOverlap = overlapRight then
      ({ p with x := oRight + TILE_SIZE / 2, vx := 0 }, standing, highestY)
    else (p, standing, highestY)
  else if (oLeft + 1 < pR ∧ pL < oRight - 1) ∧
      (-1 ≤ oTop - pB ∧ oTop - pB ≤ 3 ∧ 0 ≤ p.vy) then
    -- horizontally overlapping, about to land (near-miss tolerance −1..3)
    if oTop < highestY then (p, true, oTop) else (p, standing, highestY)
  else (p, standing, highestY)

def checkGrounded (nowMs : ℚ) (s : Scene) : Scene :=
  let wasGrounded := s.player.isGrounded
  let pB := s.player.y + TILE_SIZE / 2
  let pL := s.player.x - TILE_SIZE / 2
  let pR := s.player.x + TILE_SIZE / 2
  let pT := s.player.y - TILE_SIZE / 2
  let r := s.obstacles.foldl (groundStep pB pL pR pT) (s.player, false, SCREEN_HEIGHT)
  let s' :=
    if r.2.1 then
      { s with
        player := { r.1 with
          y := r.2.2 - TILE_SIZE / 2
          vy := 0
          isGrounded := true
          isRotating := if wasGrounded then r.1.isRotating else true }
        lastGroundedTime := nowMs }
    else { s with player := { r.1 with isGrounded := false } }
  if SCREEN_HEIGHT + 50 < s'.player.y then triggerGameOver s' else s'

/-! ### Input/jump state machine (`handleJump`, part_000 720-866)

The JS function is one body with early returns; it is factored here into the
press-buffer update, the three charge-phase early returns, and the rest
(double jump, ground jumps, hold tracking), composed in the source's order. -/

/-- Remember a press timestamp (part_000 728-730). -/
def bufferPress (nowMs : ℚ) (k : KeyInput) (s : Scene) : Scene :=
  if k.justDown then { s with jumpBufferTime := nowMs } else s

/-- Double jump, ground jumps and hold-tracking (part_000 799-866), reached
when none of the sliding/squash/launch early returns fired. -/
def handleJumpRest (nowMs : ℚ) (k : KeyInput) (s : Scene) : Scene × JEvent :=
  let timeSinceGrounded := nowMs - s.lastGroundedTime
  if k.justDown ∧ (¬s.player.isGrounded ∧ 100 < timeSinceGrounded) ∧
      s.player.vy < 0 ∧ ¬s.isChargingJump ∧ JUMP_CHARGE_COST ≤ s.jumpCharge then
    -- double jump (in air)
    ({ s with
       player := { s.player with vy := JUMP_VELOCITY, vx := 0 }
       jumpCharge := s.jumpCharge - JUMP_CHARGE_COST }, .doubleJump)
  else if (k.justDown ∨ nowMs - s.jumpBufferTime < jumpBufferWindow) ∧
      (s.player.isGrounded ∨ timeSinceGrounded ≤ 100) ∧ ¬s.isChargingJump then
    -- ground jumps: immediate free jump or start tracking hold
    if s.jumpCharge < JUMP_CHARGE_MAX then
      ({ s with
         jumpBufferTime := 0
         player := { s.player with
           vy := JUMP_VELOCITY
           vx := 0
           isGrounded := false
           isRotating := false } }, .groundJump)
    else ({ s with jumpBufferTime := 0, jumpHoldStartTime := some nowMs }, .holdPrimed)
  else
    match s.jumpHoldStartTime with
    | some t =>
      -- held past threshold (with 100% charge) → start charging
      if (s.player.isGrounded ∨ timeSinceGrounded ≤ 100) ∧ k.isDown ∧
          150 ≤ nowMs - t then
        ({ s with
           isChargingJump := true
           chargeJumpTime := 0
           jumpHoldStartTime := none }, .chargingStarted)
      else if k.justUp then
        -- released quickly → regular free jump
        if s.player.isGrounded ∨ nowMs - s.lastGroundedTime ≤ 100 then
          ({ s with
             player := { s.player with
               vy := JUMP_VELOCITY
               vx := 0
               isGrounded := false
               isRotating := false }
             jumpHoldStartTime := none }, .groundJump)
        else ({ s with jumpHoldStartTime := none }, .holdCleared)
      else (s, .noEvent)
    | none => (s, .noEvent)

def handleJump (nowMs dtMs : ℚ) (k : KeyInput) (s₀ : Scene) : Scene × JEvent :=
  let s := bufferPress nowMs k s₀
  if s.isSliding then
    -- prevent all jumping while sliding
    let s' :=
      if s.isChargingJump then
        { s with
          isChargingJump := false
          chargeJumpTime := 0
          player := { s.player with displayH := TILE_SIZE } }
      else s
    ({ s' with jumpHoldStartTime := none }, .slidingBlocked)
  else if s.isChargingJump ∧ k.isDown ∧ s.player.isGrounded then
    -- charge jump: squashing phase
    let t0 := s.chargeJumpTime + dtMs / 1000
    let t := if CHARGE_JUMP_MAX_TIME < t0 then CHARGE_JUMP_MAX_TIME else t0
    let squashProgress := min (t / CHARGE_JUMP_MAX_TIME) 1
    ({ s with
       chargeJumpTime := t
       player := { s.player with
         angle := 0
         isRotating := false
         displayH := TILE_SIZE * (1 - squashProgress * (1 - CHARGE_JUMP_SQUASH_HEIGHT)) } },
     .squashTick)
  else if s.isChargingJump ∧ k.justUp then
    -- charge jump: launch phase
    let chargeFrac := min (s.chargeJumpTime / CHARGE_JUMP_MAX_TIME) 1
    ({ s with
       player := { s.player with
         vy := CHARGE_JUMP_MIN_VELOCITY +
           (CHARGE_JUMP_MAX_VELOCITY - CHARGE_JUMP_MIN_VELOCITY) * chargeFrac
         vx := CHARGE_JUMP_HORIZONTAL_VELOCITY * chargeFrac
         isGrounded := false
         isRotating := false
         displayH := TILE_SIZE }
       jumpCharge := if 0 < s.chargeJumpTime then 0 else s.jumpCharge
       isChargingJump := false
       chargeJumpTime := 0
       jumpHoldStartTime := none },
     .chargeLaunch chargeFrac)
  else handleJumpRest nowMs k s

/-! ### Charge regeneration, rotation, scrolling, score -/

def handleJumpCharge (dtS : ℚ) (s : Scene) : Scene :=
  -- always recharge (even in the air)
  let s := { s with
    jumpCharge := min JUMP_CHARGE_MAX (s.jumpCharge + JUMP_CHARGE_RATE * dtS) }
  if s.player.isGrounded then { s with jumpsUsed := 0 } else s

/-- JS `%` truncates toward zero. -/
def jsMod (a b : ℚ) : ℚ := a - b * ((if 0 ≤ a / b then ⌊a / b⌋ else ⌈a / b⌉ : ℤ) : ℚ)

/-- `Math.round` rounds half-up. -/
def jsRound (q : ℚ) : ℤ := ⌊q + 1/2⌋

def qSign (q : ℚ) : ℚ := if q < 0 then -1 else if 0 < q then 1 else 0

def handleRotation (dtS : ℚ) (s : Scene) : Scene :=
  if ¬s.player.isGrounded then
    { s with player := { s.player with angle := s.player.angle + 360 * dtS } }
  else if s.player.isRotating then
    let c0 := jsMod s.player.angle 360
    let currentAngle := if c0 < 0 then c0 + 360 else c0
    let targetRot : ℚ := ((jsRound (currentAngle / 90) : ℤ) : ℚ) * 90
    let diff0 := targetRot - currentAngle
    let diff1 := if 180 < diff0 then diff0 - 360 else diff0
    let angleDiff := if diff1 < -180 then diff1 + 360 else diff1
    if |angleDiff| < 5 then
      { s with player := { s.player with
          angle := targetRot
          isRotating := false } }
    else
      { s with player := { s.player with
          angle := s.player.angle + qSign angleDiff * 720 * dtS } }
  else s

/-- Obstacle tiles of one generated column: rows `0..6` from the bottom,
obstacle when `row < height`, at `y = (SCREEN_HEIGHT - TILE_SIZE) - row*pitch`.
Gray background tiles carry no physics and are not modelled. -/
def columnObstacles (x : ℚ) (height : ℕ) : List Obst :=
  (List.range ROWS).filterMap fun row =>
    if row < height then
      some { x := x, y := (SCREEN_HEIGHT - TILE_SIZE) - (row : ℚ) * TILE_FULL_SIZE }
    else none

/-- `scrollWorld` (part_000 926-972): shift obstacles left, retire past
`-2*pitch`, and generate one new column when the last generated column's
screen x drops below `screenWidth + pitch`. -/
def scrollWorld (dtS : ℚ) (draws : List ℕ) (s : Scene) : Scene × List ℕ :=
  let scrollAmount := SCROLL_SPEED * dtS
  let obs := (s.obstacles.map fun o => { o with x := o.x - scrollAmount }).filter
    fun o => ¬(o.x < -(TILE_FULL_SIZE * 2))
  let worldX := s.worldX + scrollAmount
  let s := { s with obstacles := obs, worldX := worldX }
  if s.lastColumnX - worldX < SCREEN_WIDTH + TILE_FULL_SIZE then
    let newColumnX := s.lastColumnX + TILE_FULL_SIZE
    let r := generateColumnB s.score s.gen draws
    ({ s with
       obstacles := s.obstacles ++ columnObstacles (newColumnX - worldX) r.1
       gen := r.2.1
       lastColumnX := newColumnX }, r.2.2)
  else (s, draws)

/-! ### Session creation, restart, per-frame update -/

/-- `generateInitialColumns` generates `ceil(800/15) + 5 = 59` columns at
`x = i * pitch`; only the score and the generation state feed the heights.
This is the fill as run with an INITIALIZED generation state — the
`restartGame` path; the page-load fill instead runs with uninitialized
counters (`genColumnsFillAux` below). -/
def genColumnsAux : ℕ → ℕ → ℚ → GenState → List ℕ → List Obst × GenState × List ℕ
  | 0, _, _, g, d => ([], g, d)
  | n + 1, i, score, g, d =>
    let r := generateColumnB score g d
    let rest := genColumnsAux n (i + 1) score r.2.1 r.2.2
    (columnObstacles ((i : ℚ) * TILE_FULL_SIZE) r.1 ++ rest.1, rest.2.1, rest.2.2)

/-- The 59-column page-load fill: `create()` runs it before the generation
counters are assigned, so each column comes from `generateColumnBFill`. -/
def genColumnsFillAux : ℕ → ℕ → ℚ → FillState → List ℕ →
    List Obst × FillState × List ℕ
  | 0, _, _, g, d => ([], g, d)
  | n + 1, i, score, g, d =>
    let r := generateColumnBFill score g d
    let rest := genColumnsFillAux n (i + 1) score r.2.1 r.2.2
    (columnObstacles ((i : ℚ) * TILE_FULL_SIZE) r.1 ++ rest.1, rest.2.1, rest.2.2)

def genInitialColumns (draws : List ℕ) (s : Scene) : Scene × List ℕ :=
  let r := genColumnsAux 59 0 s.score s.gen draws
  ({ s with
     obstacles := s.obstacles ++ r.1
     gen := r.2.1
     lastColumnX := 58 * TILE_FULL_SIZE }, r.2.2)

/-- The scene fields as `create()` (part_000 68-215) leaves them when it
RETURNS, minus the obstacle fill (added by `initScene`): the generation
counters and `lastColumnX` are assigned only AFTER the initial fill
(part_000 201-214), so on return they hold `initGenState` / 0 regardless of
what the fill did — in particular `lastColumnX = 0` even though the fill
placed columns out to `58 * pitch`.  `isSliding` is never initialised by
`create` (JS `undefined`, which is falsy wherever it is read), modelled as
`false`. -/
def createBase : Scene :=
  { isGameOver := false
    score := 0
    worldX := 0
    jumpCharge := JUMP_CHARGE_MAX
    jumpsUsed := 0
    isChargingJump := false
    chargeJumpTime := 0
    jumpHoldStartTime := none
    lastGroundedTime := 0
    jumpBufferTime := 0
    isSliding := false
    player := { x := PLAYER_START_X
                y := CENTER_Y
                vx := 0
                vy := 0
                angle := 0
                displayH := TILE_SIZE
                targetRotation := 0
                isGrounded := false
                isRotating := false
                canDoubleJump := false }
    gen := initGenState
    lastColumnX := 0
    obstacles := [] }

/-- A fresh page-load session at the end of `create()`: the fill runs at
part_000 line 100 with the generation counters still undefined
(`genColumnsFillAux`), and the assignments that follow the fill (lines
201-214) then overwrite the fill's bookkeeping with the `createBase`
values (counters zeroed, `lastColumnX := 0`); the fill's internal
generator state is discarded. -/
def initScene (draws : List ℕ) : Scene × List ℕ :=
  let r := genColumnsFillAux 59 0 0 initFillState draws
  ({ createBase with obstacles := r.1 }, r.2.2)

/-- The field resets performed by `restartGame` (part_000 613-645).
`jumpHoldStartTime` and `lastGroundedTime` are NOT reset by the code, and
`player.isGrounded` is not reset either. -/
def resetScene (s : Scene) : Scene :=
  { createBase with
    jumpHoldStartTime := s.jumpHoldStartTime
    lastGroundedTime := s.lastGroundedTime
    player := { createBase.player with isGrounded := s.player.isGrounded } }

def restartGame (draws : List ℕ) (s : Scene) : Scene × List ℕ :=
  genInitialColumns draws (resetScene s)

/-- The 59-column fill a restart performs: `restartGame` resets the
generation state BEFORE calling `generateInitialColumns` (part_000 620-635
vs 652) and does not reset it afterwards, so this fill is ramped and leaves
`totalColumnsGenerated = 59`. -/
def restartFill (draws : List ℕ) : List Obst × GenState × List ℕ :=
  genColumnsAux 59 0 0 initGenState draws

/-- The per-frame `update` (part_000 663-705): when in GameOver only a fresh
press restarts; otherwise grounding, jump handling, rotation, recharge,
scrolling, scoring and the fell-through-the-floor terminal check, in the
source's order.  Returns the scene, the unconsumed draws and the jump event. -/
def update (nowMs dtMs : ℚ) (k : KeyInput) (draws : List ℕ) (s : Scene) :
    Scene × List ℕ × JEvent :=
  if s.isGameOver then
    if k.justDown then
      let r := restartGame draws s
      (r.1, r.2, .noEvent)
    else (s, draws, .noEvent)
  else
    let r2 := handleJump nowMs dtMs k (checkGrounded nowMs s)
    let r5 := scrollWorld (dtMs / 1000) draws
      (handleJumpCharge (dtMs / 1000) (handleRotation (dtMs / 1000) r2.1))
    let s6 := { r5.1 with score := r5.1.score + dtMs / 1000 * 10 }
    ((if SCREEN_HEIGHT + 50 < s6.player.y then triggerGameOver s6 else s6), r5.2, r2.2)

/-- Host physics integrator (Phaser arcade) between frames: gravity on the
player, then semi-implicit Euler; obstacle bodies are static. -/
def physicsStep (dtS : ℚ) (s : Scene) : Scene :=
  let vy := s.player.vy + GRAVITY * dtS
  { s with player := { s.player with
      vy := vy
      x := s.player.x + s.player.vx * dtS
      y := s.player.y + vy * dtS } }

/-! ### Tick driver for concrete scenarios -/

structure TickIn where
  nowMs : ℚ
  key : KeyInput
deriving DecidableEq, Repr

/-- Run a schedule of ticks (fixed frame length `dtMs`, no RNG draws needed
when no column generation triggers); returns the final scene and the jump
event of the last tick. -/
def runTicks (dtMs : ℚ) : List TickIn → Scene → Scene × JEvent
  | [], s => (s, .noEvent)
  | t :: rest, s =>
    let r := update t.nowMs dtMs t.key [] s
    let s' := physicsStep (dtMs / 1000) r.1
    match rest with
    | [] => (s', r.2.2)
    | _ :: _ => runTicks dtMs rest s'

def keyNone : KeyInput := { justDown := false, justUp := false, isDown := false }
def keyPress : KeyInput := { justDown := true, justUp := false, isDown := true }
def keyHold : KeyInput := { justDown := false, justUp := false, isDown := true }
def keyRelease : KeyInput := { justDown := false, justUp := true, isDown := false }

/-! ## Variant A side-collision pushback (`handleCollision`, game.js 463-484)

Variant B contains the same function verbatim but never registers the
overlap callback (part_000 line 198: collisions are handled entirely in
`checkGrounded`), so in variant B this code is unreachable. -/

structure PushResult where
  x : ℚ
  isGameOver : Bool
deriving DecidableEq, Repr

def handleCollisionA (isGameOver : Bool) (px py : ℚ) (o : Obst) : PushResult :=
  if isGameOver then { x := px, isGameOver := isGameOver }
  else
    let playerBottom := py + TILE_SIZE / 2
    let playerRight := px + TILE_SIZE / 2
    if o.y + 3 < playerBottom ∧ o.x < playerRight then
      let x' := px - 2
      if x' < GAME_OVER_BOUNDARY then { x := x', isGameOver := true }
      else { x := x', isGameOver := false }
    else { x := px, isGameOver := isGameOver }

/-! ## Concrete scenarios -/

/-- A static stretch of floor (column tops at `y = 287`) wide enough to keep
the player grounded while the world scrolls during a short scenario. -/
def floorTiles : List Obst :=
  [{ x := 135, y := 287 }, { x := 150, y := 287 },
   { x := 165, y := 287 }, { x := 180, y := 287 }]

/-- Scenario B start state: player standing on the floor with full charge.
`lastColumnX` is far right so no generation triggers during the scenario. -/
def chargeStartScene : Scene :=
  { createBase with
    player := { createBase.player with y := 287 - TILE_SIZE / 2, isGrounded := true }
    lastColumnX := 1000000
    obstacles := floorTiles }

/-- Press at t=10000ms, hold through t=10190ms, release at t=10200ms: a 200 ms
hold at a 10 ms frame length. -/
def chargeSchedule : List TickIn :=
  { nowMs := 10000, key := keyPress } ::
  ((List.range 19).map fun i => { nowMs := 10010 + 10 * (i : ℚ), key := keyHold }) ++
  [{ nowMs := 10200, key := keyRelease }]

/-- Scene state just before the release tick (after the press and 19 hold
frames). -/
def chargePrefixScene : Scene := (runTicks 10 (chargeSchedule.take 20) chargeStartScene).1

/-- The release tick, stopped right after `handleJump` (the charge-jump
launch), before the same frame's recharge runs. -/
def chargeLaunchResult : Scene × JEvent :=
  handleJump 10200 10 keyRelease (checkGrounded 10200 chargePrefixScene)

/-- A scene whose player sits fully past the left game-over boundary
(x = −20 < −13) with nothing else special going on. -/
def offLeftScene : Scene :=
  { createBase with
    player := { createBase.player with x := -20, y := 280 }
    lastColumnX := 1000000 }

/-- A landing tick: player one half-pixel above the floor tile top, falling
(vy = 2) with leftover horizontal velocity vx = 4 from a charge jump. -/
def landingScene : Scene :=
  { createBase with
    player := { createBase.player with y := 280, vy := 2, vx := 4 }
    lastColumnX := 1000000
    obstacles := [{ x := 145, y := 287 }] }

/-- A game-over scene carrying a stale hold-tracking timestamp into restart. -/
def gameOverScene : Scene :=
  { createBase with
    isGameOver := true
    jumpHoldStartTime := some 5000
    lastGroundedTime := 7777
    score := 123
    obstacles := [{ x := 145, y := 287 }] }

/-- Draws for regenerating the 59 initial columns: columns 30..58 alternate a
fresh draw (height 7, first attempt) and a mandatory pattern repeat; each
fresh column consumes a height draw (7) and a pattern-chance draw (3). -/
def restartDraws : List ℕ := (List.replicate 15 [7, 3]).flatten

/-- Witness scene: grounded with partial charge — a press gives an immediate
free ground jump. -/
def groundScene : Scene :=
  { createBase with jumpCharge := 60
                    player := { createBase.player with isGrounded := true } }

/-- Witness scene: airborne and rising, 200 ms past last grounding, charge 60
— a press gives a double jump (Scenario C). -/
def airScene : Scene :=
  { createBase with jumpCharge := 60
                    lastGroundedTime := 9800
                    player := { createBase.player with vy := -100 } }

/-- Witness scene: mid-charge with 1 s accumulated — a release launches the
charge jump. -/
def launchScene : Scene :=
  { createBase with isChargingJump := true
                    chargeJumpTime := 1
                    player := { createBase.player with isGrounded := true } }

/-! ## Helper lemmas: generator bounds -/

theorem between_zero_seven_le (n : ℕ) : between 0 7 n ≤ 7 := by
  simp only [between]
  omega

theorem between_one_pos (hi n : ℕ) : 1 ≤ between 1 hi n := by
  simp only [between]
  omega

theorem between_one_ne_zero (hi n : ℕ) : between 1 hi n ≠ 0 := by
  have := between_one_pos hi n
  omega

theorem between_one_le (hi n : ℕ) (h : 1 ≤ hi) : between 1 hi n ≤ hi := by
  simp only [between]
  have hlt : n % (hi + 1 - 1) < hi := by
    have : hi + 1 - 1 = hi := by omega
    rw [this]
    exact Nat.mod_lt n (by omega)
  omega

theorem clampHeight_le (p m : ℕ) : clampHeight p m ≤ 7 := by
  unfold clampHeight
  have h1 : min (min 7 ((p : ℤ) - m)) ((p : ℤ) + m) ≤ 7 :=
    le_trans (min_le_left _ _) (min_le_left _ _)
  have h2 : max 0 (min (min 7 ((p : ℤ) - m)) ((p : ℤ) + m)) ≤ 7 :=
    max_le (by norm_num) h1
  omega

theorem heightAttempts_le_aux (prev m : ℕ) :
    ∀ (fuel a : ℕ) (d : List ℕ), 11 - a ≤ fuel → (heightAttempts prev m a d).1 ≤ 7 := by
  intro fuel
  induction fuel with
  | zero =>
    intro a d h
    unfold heightAttempts
    rw [dif_pos (by omega)]
    exact clampHeight_le prev m
  | succ f ih =>
    intro a d h
    unfold heightAttempts
    split
    · exact clampHeight_le prev m
    · dsimp only
      split
      · exact ih (a + 1) _ (by omega)
      · exact between_zero_seven_le _

theorem heightAttempts_le (prev m a : ℕ) (d : List ℕ) :
    (heightAttempts prev m a d).1 ≤ 7 :=
  heightAttempts_le_aux prev m (11 - a) a d le_rfl

/-! ## Helper lemmas: ramp-up and fresh-draw branches -/

theorem runA_ramp :
    ∀ (n : ℕ) (s : GenStateA) (draws : List ℕ),
      s.totalColumnsGenerated + n ≤ 30 →
      (runA s draws n).all (fun h => h == 7) = true := by
  intro n
  induction n with
  | zero => intro s d _; rfl
  | succ m ih =>
    intro s d hle
    have h30 : s.totalColumnsGenerated < 30 := by omega
    rw [runA]
    simp only [generateColumnA, if_pos h30, List.all_cons, Bool.and_eq_true, beq_self_eq_true,
      true_and]
    exact ih _ _ (by simp only []; omega)

theorem runB_ramp :
    ∀ (n : ℕ) (scores : List ℚ) (s : GenState) (draws : List ℕ),
      s.totalColumnsGenerated + n ≤ 30 →
      (runB scores s draws n).all (fun h => h == 7) = true := by
  intro n
  induction n with
  | zero => intro scores s d _; rfl
  | succ m ih =>
    intro scores s d hle
    have h30 : s.totalColumnsGenerated < 30 := by omega
    rw [runB]
    simp only [generateColumnB, if_pos h30, List.all_cons, Bool.and_eq_true, beq_self_eq_true,
      true_and]
    exact ih _ _ _ (by simp only []; omega)

/-- The fresh-draw branch of variant A's generator can only output height 0
when the incremented empty-column counter stays within 2; a forced redraw
from [1,7] is never 0. -/
theorem genA_fresh_zero (s : GenStateA) (d : List ℕ)
    (ht : ¬ s.totalColumnsGenerated < 30) (hp : s.patternColumnsRemaining = 0)
    (h0 : (generateColumnA s d).1 = 0) :
    (generateColumnA s d).2.1.consecutiveEmptyColumns = s.consecutiveEmptyColumns + 1 ∧
    s.consecutiveEmptyColumns + 1 ≤ 2 := by
  unfold generateColumnA at h0 ⊢
  rw [if_neg ht, if_neg (by omega)] at h0 ⊢
  by_cases hz : between 0 7 (draw1 d).1 = 0
  · by_cases hc : 2 < s.consecutiveEmptyColumns + 1
    · exfalso
      simp only [hz, if_pos rfl, if_pos hc] at h0
      exact between_one_ne_zero _ _ h0
    · simp only [hz, if_pos rfl, if_neg hc] at h0 ⊢
      exact ⟨rfl, by omega⟩
  · exfalso
    simp only [if_neg hz] at h0
    exact hz h0

/-- Same for variant B: a forced redraw from [1, min 7 (prev+maxDiff)] is
never 0. -/
theorem genB_fresh_zero (score : ℚ) (s : GenState) (d : List ℕ)
    (ht : ¬ s.totalColumnsGenerated < 30) (hp : s.patternColumnsRemaining = 0)
    (h0 : (generateColumnB score s d).1 = 0) :
    (generateColumnB score s d).2.1.consecutiveEmptyColumns = s.consecutiveEmptyColumns + 1 ∧
    s.consecutiveEmptyColumns + 1 ≤ 2 := by
  unfold generateColumnB at h0 ⊢
  rw [if_neg ht, if_neg (by omega)] at h0 ⊢
  by_cases hz :
      (heightAttempts s.previousColumnHeight (2 + difficultyLevel score) 0 d).1 = 0
  · by_cases hc : 2 < s.consecutiveEmptyColumns + 1
    · exfalso
      simp only [hz, if_pos rfl, if_pos hc] at h0
      exact between_one_ne_zero _ _ h0
    · simp only [hz, if_pos rfl, if_neg hc] at h0 ⊢
      exact ⟨rfl, by omega⟩
  · exfalso
    simp only [if_neg hz] at h0
    exact hz h0

/-! ## Claim C1: empty-run bound -/

set_option maxRecDepth 20000 in
/-- C1 counterexample (variant A, two failure modes): (i) from an
initialized generator with the draw stream [0, 14], columns 30, 31 and 32
all have height 0 — the fresh draw 0 schedules a pattern of two more
columns that copy height 0 without touching `consecutiveEmptyColumns`;
(ii) during the page-load initial fill the empty-column counter is
undefined (NaN after `++`), the `> 2` redraw never fires, and three
consecutive FRESH draws of 0 (draw stream [0, 6, 0, 6, 0, 6]; chance 6
rolls 7, which schedules no pattern) give three consecutive empty columns.
Either run refutes the claim that no generation sequence contains 3
consecutive columns of height 0. -/
theorem C1_counterexample :
    (runA initGenStateA [0, 14] 33).drop 30 = [0, 0, 0] ∧
    runAFill initFillStateA [0, 6, 0, 6, 0, 6] 3 = [0, 0, 0] := by
  exact ⟨by decide, by decide⟩

/-- C1 (amended): once the generation counters are initialized — which
holds for every column generated after `create()` returns and for the whole
restart fill, but NOT during the page-load initial fill, where the
undefined empty-column counter disables the forced redraw — no 3
consecutive fresh random draws all yield height 0, in either variant: a
fresh draw of 0 increments the (numeric) empty-column counter, the counter
is forced to a nonzero redraw when it would exceed 2, and pattern/ramp
columns leave the counter unchanged (here expressed by equating the counter
across the interludes). -/
theorem C1_no_three_consecutive_fresh_empty :
    (∀ (s₁ s₂ s₃ : GenStateA) (d₁ d₂ d₃ : List ℕ),
      ¬ s₁.totalColumnsGenerated < 30 → s₁.patternColumnsRemaining = 0 →
      ¬ s₂.totalColumnsGenerated < 30 → s₂.patternColumnsRemaining = 0 →
      ¬ s₃.totalColumnsGenerated < 30 → s₃.patternColumnsRemaining = 0 →
      s₂.consecutiveEmptyColumns = (generateColumnA s₁ d₁).2.1.consecutiveEmptyColumns →
      s₃.consecutiveEmptyColumns = (generateColumnA s₂ d₂).2.1.consecutiveEmptyColumns →
      ¬((generateColumnA s₁ d₁).1 = 0 ∧ (generateColumnA s₂ d₂).1 = 0 ∧
        (generateColumnA s₃ d₃).1 = 0)) ∧
    (∀ (sc₁ sc₂ sc₃ : ℚ) (s₁ s₂ s₃ : GenState) (d₁ d₂ d₃ : List ℕ),
      ¬ s₁.totalColumnsGenerated < 30 → s₁.patternColumnsRemaining = 0 →
      ¬ s₂.totalColumnsGenerated < 30 → s₂.patternColumnsRemaining = 0 →
      ¬ s₃.totalColumnsGenerated < 30 → s₃.patternColumnsRemaining = 0 →
      s₂.consecutiveEmptyColumns = (generateColumnB sc₁ s₁ d₁).2.1.consecutiveEmptyColumns →
      s₃.consecutiveEmptyColumns = (generateColumnB sc₂ s₂ d₂).2.1.consecutiveEmptyColumns →
      ¬((generateColumnB sc₁ s₁ d₁).1 = 0 ∧ (generateColumnB sc₂ s₂ d₂).1 = 0 ∧
        (generateColumnB sc₃ s₃ d₃).1 = 0)) := by
  constructor
  · intro s₁ s₂ s₃ d₁ d₂ d₃ ht₁ hp₁ ht₂ hp₂ ht₃ hp₃ he₁ he₂
    rintro ⟨hz₁, hz₂, hz₃⟩
    obtain ⟨e₁, b₁⟩ := genA_fresh_zero s₁ d₁ ht₁ hp₁ hz₁
    obtain ⟨e₂, b₂⟩ := genA_fresh_zero s₂ d₂ ht₂ hp₂ hz₂
    obtain ⟨e₃, b₃⟩ := genA_fresh_zero s₃ d₃ ht₃ hp₃ hz₃
    omega
  · intro sc₁ sc₂ sc₃ s₁ s₂ s₃ d₁ d₂ d₃ ht₁ hp₁ ht₂ hp₂ ht₃ hp₃ he₁ he₂
    rintro ⟨hz₁, hz₂, hz₃⟩
    obtain ⟨e₁, b₁⟩ := genB_fresh_zero sc₁ s₁ d₁ ht₁ hp₁ hz₁
    obtain ⟨e₂, b₂⟩ := genB_fresh_zero sc₂ s₂ d₂ ht₂ hp₂ hz₂
    obtain ⟨e₃, b₃⟩ := genB_fresh_zero sc₃ s₃ d₃ ht₃ hp₃ hz₃
    omega

/-- Witness for C1 (amended) at concrete fresh states and draws. -/
theorem C1_no_three_consecutive_fresh_empty_witness :
    ¬((generateColumnA ⟨0, 30, 0, 0⟩ [1, 6]).1 = 0 ∧
      (generateColumnA ⟨0, 31, 0, 0⟩ [1, 6]).1 = 0 ∧
      (generateColumnA ⟨0, 32, 0, 0⟩ [1, 6]).1 = 0) ∧
    ¬((generateColumnB 0 ⟨0, 30, 0, 0, 7⟩ [7, 3]).1 = 0 ∧
      (generateColumnB 0 ⟨0, 31, 0, 0, 7⟩ [7, 3]).1 = 0 ∧
      (generateColumnB 0 ⟨0, 32, 0, 0, 7⟩ [7, 3]).1 = 0) :=
  ⟨C1_no_three_consecutive_fresh_empty.1 ⟨0, 30, 0, 0⟩ ⟨0, 31, 0, 0⟩ ⟨0, 32, 0, 0⟩
      [1, 6] [1, 6] [1, 6]
      (by decide) (by decide) (by decide) (by decide) (by decide) (by decide)
      (by decide) (by decide),
   C1_no_three_consecutive_fresh_empty.2 0 0 0 ⟨0, 30, 0, 0, 7⟩ ⟨0, 31, 0, 0, 7⟩
      ⟨0, 32, 0, 0, 7⟩ [7, 3] [7, 3] [7, 3]
      (by decide) (by decide) (by decide) (by decide) (by decide) (by decide)
      (by with_unfolding_all decide) (by with_unfolding_all decide)⟩

/-! ## Claim C5: ramp-up -/

set_option maxRecDepth 20000 in
/-- C5 (code bug): the claim restates the code's own comment ("First 30
columns are full height for smooth start"), but `create()` calls
`generateInitialColumns` BEFORE initializing `totalColumnsGenerated`
(game.js 84 vs 171; part_000 100 vs 207) and `undefined < 30` is false in
JS, so a page-load session's first 30 columns take random heights — here a
draw stream under which all 30 of them are EMPTY, in both variants.  From
an initialized generation state (the `restartGame` path, which resets the
counters before its fill) the ramp does hold for every draw stream and
score sequence. -/
theorem C5_rampup_bypassed_on_pageload :
    (runAFill initFillStateA ((List.replicate 15 ([0, 0] : List ℕ)).flatten) 30 =
       List.replicate 30 0 ∧
     runBFill 0 initFillState ((List.replicate 15 ([0, 3] : List ℕ)).flatten) 30 =
       List.replicate 30 0 ∧
     ¬ List.replicate 30 (0 : ℕ) = List.replicate 30 7) ∧
    (∀ (draws : List ℕ) (scores : List ℚ),
      (runA initGenStateA draws 30).all (fun h => h == 7) = true ∧
      (runB scores initGenState draws 30).all (fun h => h == 7) = true) :=
  ⟨⟨by decide, by with_unfolding_all decide, by decide⟩,
   fun draws scores => ⟨runA_ramp 30 initGenStateA draws (by decide),
     runB_ramp 30 scores initGenState draws (by decide)⟩⟩

/-! ## Claim C6: height bound -/

/-- C6: every generated column height lies in [0, 7] (heights are naturals,
so only the upper bound is substantive), in both variants, including variant
B's bounded retry loop, its clamped fallback and the forced redraws; the
bound is preserved as an invariant of the generation state
(`previousColumnHeight`, `patternHeight` ≤ 7). -/
theorem C6_height_bound :
    (∀ (score : ℚ) (s : GenState) (draws : List ℕ),
      s.previousColumnHeight ≤ 7 → s.patternHeight ≤ 7 →
      (generateColumnB score s draws).1 ≤ 7 ∧
      (generateColumnB score s draws).2.1.previousColumnHeight ≤ 7 ∧
      (generateColumnB score s draws).2.1.patternHeight ≤ 7) ∧
    (∀ (s : GenStateA) (draws : List ℕ),
      s.patternHeight ≤ 7 →
      (generateColumnA s draws).1 ≤ 7 ∧
      (generateColumnA s draws).2.1.patternHeight ≤ 7) := by
  constructor
  · intro score s draws hprev hpat
    have hb : (heightAttempts s.previousColumnHeight (2 + difficultyLevel score) 0 draws).1 ≤ 7 :=
      heightAttempts_le _ _ _ _
    have hmin : 1 ≤ min 7 (s.previousColumnHeight + (2 + difficultyLevel score)) :=
      le_min (by norm_num) (by omega)
    have hred := between_one_le (min 7 (s.previousColumnHeight + (2 + difficultyLevel score)))
      (draw1 (heightAttempts s.previousColumnHeight
        (2 + difficultyLevel score) 0 draws).2).1 hmin
    have h7 : min 7 (s.previousColumnHeight + (2 + difficultyLevel score)) ≤ 7 :=
      min_le_left _ _
    unfold generateColumnB
    dsimp only
    split_ifs with h1 h2 hz hc <;> dsimp only <;> omega
  · intro s draws hpat
    have hb : between 0 7 (draw1 draws).1 ≤ 7 := between_zero_seven_le _
    have h17 : between 1 7 (draw1 (draw1 draws).2).1 ≤ 7 :=
      between_one_le 7 _ (by norm_num)
    unfold generateColumnA
    dsimp only
    split_ifs <;> dsimp only <;> omega

/-- Witness for C6 at a concrete score, state and draw stream. -/
theorem C6_height_bound_witness :
    (generateColumnB 250 ⟨1, 40, 0, 3, 5⟩ [6, 2]).1 ≤ 7 ∧
    (generateColumnA ⟨1, 40, 0, 3⟩ [6, 2]).1 ≤ 7 :=
  ⟨((C6_height_bound.1 250 ⟨1, 40, 0, 3, 5⟩ [6, 2] (by decide) (by decide))).1,
   ((C6_height_bound.2 ⟨1, 40, 0, 3⟩ [6, 2] (by decide))).1⟩

/-! ## Helper lemmas: field preservation through the frame pipeline -/

theorem triggerGameOver_jumpCharge (s : Scene) :
    (triggerGameOver s).jumpCharge = s.jumpCharge := rfl

theorem checkGrounded_jumpCharge (nowMs : ℚ) (s : Scene) :
    (checkGrounded nowMs s).jumpCharge = s.jumpCharge := by
  simp only [checkGrounded]
  split_ifs <;> rfl

theorem handleRotation_jumpCharge (dtS : ℚ) (s : Scene) :
    (handleRotation dtS s).jumpCharge = s.jumpCharge := by
  unfold handleRotation
  dsimp only
  split_ifs <;> rfl

theorem scrollWorld_jumpCharge (dtS : ℚ) (draws : List ℕ) (s : Scene) :
    (scrollWorld dtS draws s).1.jumpCharge = s.jumpCharge := by
  unfold scrollWorld
  dsimp only
  split_ifs <;> rfl

theorem handleJumpCharge_eq (dtS : ℚ) (s : Scene) :
    (handleJumpCharge dtS s).jumpCharge =
      min JUMP_CHARGE_MAX (s.jumpCharge + JUMP_CHARGE_RATE * dtS) := by
  unfold handleJumpCharge
  dsimp only
  split_ifs <;> rfl

/-- On a Running tick, the charge after `update` is the recharge formula
applied to the charge left by `handleJump`; nothing after `handleJumpCharge`
in the frame touches the charge. -/
theorem update_jumpCharge (nowMs dtMs : ℚ) (k : KeyInput) (draws : List ℕ)
    (s : Scene) (h : s.isGameOver = false) :
    (update nowMs dtMs k draws s).1.jumpCharge =
      min JUMP_CHARGE_MAX
        ((handleJump nowMs dtMs k (checkGrounded nowMs s)).1.jumpCharge +
          JUMP_CHARGE_RATE * (dtMs / 1000)) := by
  unfold update
  rw [if_neg (by rw [h]; exact Bool.false_ne_true)]
  dsimp only
  split_ifs with hy
  · rw [triggerGameOver_jumpCharge]
    dsimp only
    rw [scrollWorld_jumpCharge, handleJumpCharge_eq, handleRotation_jumpCharge]
  · dsimp only
    rw [scrollWorld_jumpCharge, handleJumpCharge_eq, handleRotation_jumpCharge]

theorem bufferPress_isSliding (n : ℚ) (k : KeyInput) (s : Scene) :
    (bufferPress n k s).isSliding = s.isSliding := by
  unfold bufferPress; split_ifs <;> rfl

theorem bufferPress_isChargingJump (n : ℚ) (k : KeyInput) (s : Scene) :
    (bufferPress n k s).isChargingJump = s.isChargingJump := by
  unfold bufferPress; split_ifs <;> rfl

theorem bufferPress_player (n : ℚ) (k : KeyInput) (s : Scene) :
    (bufferPress n k s).player = s.player := by
  unfold bufferPress; split_ifs <;> rfl

theorem bufferPress_jumpCharge (n : ℚ) (k : KeyInput) (s : Scene) :
    (bufferPress n k s).jumpCharge = s.jumpCharge := by
  unfold bufferPress; split_ifs <;> rfl

theorem bufferPress_chargeJumpTime (n : ℚ) (k : KeyInput) (s : Scene) :
    (bufferPress n k s).chargeJumpTime = s.chargeJumpTime := by
  unfold bufferPress; split_ifs <;> rfl

theorem bufferPress_jumpHoldStartTime (n : ℚ) (k : KeyInput) (s : Scene) :
    (bufferPress n k s).jumpHoldStartTime = s.jumpHoldStartTime := by
  unfold bufferPress; split_ifs <;> rfl

theorem bufferPress_lastGroundedTime (n : ℚ) (k : KeyInput) (s : Scene) :
    (bufferPress n k s).lastGroundedTime = s.lastGroundedTime := by
  unfold bufferPress; split_ifs <;> rfl

/-- `handleJumpRest` either leaves the charge unchanged or deducts exactly
the double-jump cost (only when affordable). -/
theorem handleJumpRest_charge_cases (nowMs : ℚ) (k : KeyInput) (s : Scene) :
    (handleJumpRest nowMs k s).1.jumpCharge = s.jumpCharge ∨
    ((handleJumpRest nowMs k s).1.jumpCharge = s.jumpCharge - JUMP_CHARGE_COST ∧
      JUMP_CHARGE_COST ≤ s.jumpCharge) := by
  unfold handleJumpRest
  dsimp only
  cases hJ : s.jumpHoldStartTime <;> (try dsimp only) <;> split_ifs <;>
      (try dsimp only) <;>
    first
    | (left; rfl)
    | (right; refine ⟨rfl, ?_⟩; tauto)

/-- `handleJump` either leaves the charge unchanged, deducts exactly the
double-jump cost (only when affordable), or zeroes it (charge-jump launch). -/
theorem handleJump_charge_cases (nowMs dtMs : ℚ) (k : KeyInput) (s : Scene) :
    (handleJump nowMs dtMs k s).1.jumpCharge = s.jumpCharge ∨
    ((handleJump nowMs dtMs k s).1.jumpCharge = s.jumpCharge - JUMP_CHARGE_COST ∧
      JUMP_CHARGE_COST ≤ s.jumpCharge) ∨
    (handleJump nowMs dtMs k s).1.jumpCharge = 0 := by
  have hrest :
      (handleJumpRest nowMs k (bufferPress nowMs k s)).1.jumpCharge = s.jumpCharge ∨
      ((handleJumpRest nowMs k (bufferPress nowMs k s)).1.jumpCharge =
          s.jumpCharge - JUMP_CHARGE_COST ∧ JUMP_CHARGE_COST ≤ s.jumpCharge) := by
    rcases handleJumpRest_charge_cases nowMs k (bufferPress nowMs k s) with h | ⟨h, hc⟩
    · left; rw [h, bufferPress_jumpCharge]
    · right; rw [bufferPress_jumpCharge] at h hc; exact ⟨h, hc⟩
  unfold handleJump
  dsimp only
  split_ifs <;>
    first
    | (left; exact bufferPress_jumpCharge nowMs k s)
    | (right; right; rfl)
    | exact hrest.elim Or.inl (fun h => Or.inr (Or.inl h))

/-- Branch-level effects of `handleJumpRest`: a ground jump (immediate or
quick-release) leaves the charge untouched; a double jump deducts exactly the
cost (and requires it affordable), sets `vy` to the jump velocity and zeroes
`vx`; no branch of the rest-handler emits a charge-launch event. -/
theorem handleJumpRest_event_effects (nowMs : ℚ) (k : KeyInput) (s : Scene) (r : ℚ) :
    ((handleJumpRest nowMs k s).2 = JEvent.groundJump →
      (handleJumpRest nowMs k s).1.jumpCharge = s.jumpCharge) ∧
    ((handleJumpRest nowMs k s).2 = JEvent.doubleJump →
      (handleJumpRest nowMs k s).1.jumpCharge = s.jumpCharge - JUMP_CHARGE_COST ∧
      JUMP_CHARGE_COST ≤ s.jumpCharge ∧
      (handleJumpRest nowMs k s).1.player.vy = JUMP_VELOCITY ∧
      (handleJumpRest nowMs k s).1.player.vx = 0) ∧
    ((handleJumpRest nowMs k s).2 = JEvent.chargeLaunch r → False) := by
  unfold handleJumpRest
  dsimp only
  cases hJ : s.jumpHoldStartTime <;> (try dsimp only) <;> split_ifs <;>
    refine ⟨?_, ?_, ?_⟩ <;> intro hev <;>
    first
    | rfl
    | (refine ⟨rfl, ?_, rfl, rfl⟩; tauto)
    | (exact absurd hev (by simp))

/-- Lifting the branch effects through `handleJump`: the three charge-phase
early returns never emit ground/double-jump events, and the launch branch
zeroes the charge whenever any charge time was accumulated. -/
theorem handleJump_event_effects (nowMs dtMs : ℚ) (k : KeyInput) (s : Scene) (r : ℚ) :
    ((handleJump nowMs dtMs k s).2 = JEvent.groundJump →
      (handleJump nowMs dtMs k s).1.jumpCharge = s.jumpCharge) ∧
    ((handleJump nowMs dtMs k s).2 = JEvent.doubleJump →
      (handleJump nowMs dtMs k s).1.jumpCharge = s.jumpCharge - JUMP_CHARGE_COST ∧
      JUMP_CHARGE_COST ≤ s.jumpCharge ∧
      (handleJump nowMs dtMs k s).1.player.vy = JUMP_VELOCITY ∧
      (handleJump nowMs dtMs k s).1.player.vx = 0) ∧
    ((handleJump nowMs dtMs k s).2 = JEvent.chargeLaunch r →
      0 < s.chargeJumpTime → (handleJump nowMs dtMs k s).1.jumpCharge = 0) := by
  have hre := handleJumpRest_event_effects nowMs k (bufferPress nowMs k s) r
  rw [bufferPress_jumpCharge] at hre
  have hct := bufferPress_chargeJumpTime nowMs k s
  unfold handleJump
  dsimp only
  split_ifs with h1 h2 h3 h4 h5 h6 <;>
    refine ⟨?_, ?_, ?_⟩ <;> intro hev <;>
    first
    | (exact hre.1 hev)
    | (exact hre.2.1 hev)
    | (exact absurd hev hre.2.2)
    | (intro hq; rfl)
    | (intro hq
       exfalso
       rw [hct] at h6
       exact h6 hq)
    | (exact absurd hev (by simp))

theorem restartGame_jumpCharge (draws : List ℕ) (s : Scene) :
    (restartGame draws s).1.jumpCharge = JUMP_CHARGE_MAX := rfl

theorem update_gameOver_restart (nowMs dtMs : ℚ) (k : KeyInput) (draws : List ℕ)
    (s : Scene) (h1 : s.isGameOver = true) (h2 : k.justDown = true) :
    update nowMs dtMs k draws s =
      ((restartGame draws s).1, (restartGame draws s).2, JEvent.noEvent) := by
  unfold update
  rw [if_pos h1, if_pos h2]

theorem update_gameOver_idle (nowMs dtMs : ℚ) (k : KeyInput) (draws : List ℕ)
    (s : Scene) (h1 : s.isGameOver = true) (h2 : k.justDown = false) :
    update nowMs dtMs k draws s = (s, draws, JEvent.noEvent) := by
  unfold update
  rw [if_pos h1, if_neg (by rw [h2]; exact Bool.false_ne_true)]

/-! ## Claim C4: charge conservation -/

/-- C4: (i) across any frame (`update`) with non-negative elapsed time, the
jump charge stays within [0, JUMP_CHARGE_MAX]; (ii) a free (tap/quick-release)
ground jump leaves the charge unchanged; (iii) a double jump deducts exactly
JUMP_CHARGE_COST (and only fires when affordable); (iv) a charge-jump launch
with nonzero accumulated charge time sets the charge to exactly 0 (before the
same frame's recharge). -/
theorem C4_charge_conservation (nowMs dtMs : ℚ) (k : KeyInput) (draws : List ℕ)
    (s : Scene) :
    (0 ≤ dtMs → 0 ≤ s.jumpCharge → s.jumpCharge ≤ JUMP_CHARGE_MAX →
      0 ≤ (update nowMs dtMs k draws s).1.jumpCharge ∧
      (update nowMs dtMs k draws s).1.jumpCharge ≤ JUMP_CHARGE_MAX) ∧
    ((handleJump nowMs dtMs k s).2 = JEvent.groundJump →
      (handleJump nowMs dtMs k s).1.jumpCharge = s.jumpCharge) ∧
    ((handleJump nowMs dtMs k s).2 = JEvent.doubleJump →
      (handleJump nowMs dtMs k s).1.jumpCharge = s.jumpCharge - JUMP_CHARGE_COST ∧
      JUMP_CHARGE_COST ≤ s.jumpCharge) ∧
    (∀ r, (handleJump nowMs dtMs k s).2 = JEvent.chargeLaunch r →
      0 < s.chargeJumpTime → (handleJump nowMs dtMs k s).1.jumpCharge = 0) := by
  refine ⟨?_, ?_, ?_, ?_⟩
  · intro hdt h0 hmax
    by_cases hgo : s.isGameOver = true
    · by_cases hjd : k.justDown = true
      · rw [update_gameOver_restart nowMs dtMs k draws s hgo hjd]
        rw [restartGame_jumpCharge]
        unfold JUMP_CHARGE_MAX
        norm_num
      · rw [update_gameOver_idle nowMs dtMs k draws s hgo (by simpa using hjd)]
        exact ⟨h0, hmax⟩
    · rw [update_jumpCharge nowMs dtMs k draws s (by simpa using hgo)]
      have hc : (checkGrounded nowMs s).jumpCharge = s.jumpCharge :=
        checkGrounded_jumpCharge nowMs s
      have hdtS : 0 ≤ dtMs / 1000 := by positivity
      have hrate : 0 ≤ JUMP_CHARGE_RATE * (dtMs / 1000) := by
        unfold JUMP_CHARGE_RATE; positivity
      rcases handleJump_charge_cases nowMs dtMs k (checkGrounded nowMs s) with
        h | ⟨h, hcost⟩ | h
      · rw [h, hc]
        refine ⟨le_min (by unfold JUMP_CHARGE_MAX; norm_num) (by linarith), min_le_left _ _⟩
      · rw [h, hc]
        rw [hc] at hcost
        unfold JUMP_CHARGE_COST at hcost ⊢
        refine ⟨le_min (by unfold JUMP_CHARGE_MAX; norm_num) (by linarith), min_le_left _ _⟩
      · rw [h]
        refine ⟨le_min (by unfold JUMP_CHARGE_MAX; norm_num) (by linarith), min_le_left _ _⟩
  · exact (handleJump_event_effects nowMs dtMs k s 0).1
  · intro hev
    obtain ⟨h1, h2, -, -⟩ := (handleJump_event_effects nowMs dtMs k s 0).2.1 hev
    exact ⟨h1, h2⟩
  · exact fun r => (handleJump_event_effects nowMs dtMs k s r).2.2

/-- Witness for C4: full charge stays in bounds across a frame; a tap ground
jump with charge 60 keeps 60; a double jump deducts the cost; a launch with
1 s accumulated charge zeroes the charge. -/
theorem C4_charge_conservation_witness :
    (0 ≤ (update 10000 10 keyNone [] createBase).1.jumpCharge ∧
      (update 10000 10 keyNone [] createBase).1.jumpCharge ≤ JUMP_CHARGE_MAX) ∧
    (handleJump 10000 10 keyPress groundScene).1.jumpCharge = groundScene.jumpCharge ∧
    (handleJump 10000 10 keyPress airScene).1.jumpCharge =
      airScene.jumpCharge - JUMP_CHARGE_COST ∧
    (handleJump 10000 10 keyRelease launchScene).1.jumpCharge = 0 :=
  ⟨(C4_charge_conservation 10000 10 keyNone [] createBase).1
      (by norm_num) (by with_unfolding_all decide) (by with_unfolding_all decide),
   (C4_charge_conservation 10000 10 keyPress [] groundScene).2.1
      (by with_unfolding_all decide),
   ((C4_charge_conservation 10000 10 keyPress [] airScene).2.2.1
      (by with_unfolding_all decide)).1,
   (C4_charge_conservation 10000 10 keyRelease [] launchScene).2.2.2
      (min (1 / CHARGE_JUMP_MAX_TIME) 1)
      (by with_unfolding_all decide) (by with_unfolding_all decide)⟩

/-! ## Claim C10: recharge is not gated on grounded state -/

/-- C10: `handleJumpCharge` recharges by JUMP_CHARGE_RATE × dt clamped to
JUMP_CHARGE_MAX, with the identical result whatever the grounded flag is, and
on every Running tick `update` applies exactly this recharge to the charge
left by the jump handler (the config comment "recovery per second when
grounded" notwithstanding). -/
theorem C10_recharge_ungated (dtS : ℚ) (s : Scene) :
    (handleJumpCharge dtS s).jumpCharge =
      min JUMP_CHARGE_MAX (s.jumpCharge + JUMP_CHARGE_RATE * dtS) ∧
    (∀ b : Bool,
      (handleJumpCharge dtS
          { s with player := { s.player with isGrounded := b } }).jumpCharge =
        min JUMP_CHARGE_MAX (s.jumpCharge + JUMP_CHARGE_RATE * dtS)) ∧
    (∀ (nowMs dtMs : ℚ) (k : KeyInput) (draws : List ℕ), s.isGameOver = false →
      (update nowMs dtMs k draws s).1.jumpCharge =
        min JUMP_CHARGE_MAX
          ((handleJump nowMs dtMs k (checkGrounded nowMs s)).1.jumpCharge +
            JUMP_CHARGE_RATE * (dtMs / 1000))) := by
  refine ⟨handleJumpCharge_eq dtS s, ?_, ?_⟩
  · intro b
    rw [handleJumpCharge_eq]
  · intro nowMs dtMs k draws hgo
    exact update_jumpCharge nowMs dtMs k draws s hgo

/-- Witness for C10 at a concrete scene and frame. -/
theorem C10_recharge_ungated_witness :
    (handleJumpCharge 2 createBase).jumpCharge =
      min JUMP_CHARGE_MAX (createBase.jumpCharge + JUMP_CHARGE_RATE * 2) ∧
    (update 10000 10 keyNone [] createBase).1.jumpCharge =
      min JUMP_CHARGE_MAX
        ((handleJump 10000 10 keyNone (checkGrounded 10000 createBase)).1.jumpCharge +
          JUMP_CHARGE_RATE * (10 / 1000)) :=
  ⟨(C10_recharge_ungated 2 createBase).1,
   (C10_recharge_ungated 2 createBase).2.2 10000 10 keyNone [] (by decide)⟩

set_option maxHeartbeats 1000000 in
/-- In the rest-handler, the double-jump event fires exactly under the
airborne-past-grace / rising / not-charging / affordable conditions. -/
theorem handleJumpRest_doubleJump_iff (nowMs : ℚ) (k : KeyInput) (s : Scene) :
    (handleJumpRest nowMs k s).2 = JEvent.doubleJump ↔
      (k.justDown = true ∧ ¬(s.player.isGrounded = true) ∧
       100 < nowMs - s.lastGroundedTime ∧ s.player.vy < 0 ∧
       ¬(s.isChargingJump = true) ∧ JUMP_CHARGE_COST ≤ s.jumpCharge) := by
  unfold handleJumpRest
  dsimp only
  cases hJ : s.jumpHoldStartTime <;> (try dsimp only) <;> split_ifs <;>
    constructor <;> intro h <;> (try dsimp only at h) <;>
    first
    | rfl
    | tauto

/-! ## Claim C7: double-jump conditions and effects -/

/-- C7: with sliding disabled (the `isSliding` flag is never set in the
code), a press fires a double jump if and only if the player is airborne
beyond the 100 ms grace period, moving upward, not charging, and the charge
covers the cost; the double jump then sets `vy` to the jump velocity, zeroes
`vx`, and deducts exactly JUMP_CHARGE_COST (e.g. 60 − 50 = 10). -/
theorem C7_double_jump_iff (nowMs dtMs : ℚ) (k : KeyInput) (s : Scene)
    (hs : s.isSliding = false) :
    ((handleJump nowMs dtMs k s).2 = JEvent.doubleJump ↔
      (k.justDown = true ∧ ¬(s.player.isGrounded = true) ∧
       100 < nowMs - s.lastGroundedTime ∧ s.player.vy < 0 ∧
       ¬(s.isChargingJump = true) ∧ JUMP_CHARGE_COST ≤ s.jumpCharge)) ∧
    ((handleJump nowMs dtMs k s).2 = JEvent.doubleJump →
      (handleJump nowMs dtMs k s).1.player.vy = JUMP_VELOCITY ∧
      (handleJump nowMs dtMs k s).1.player.vx = 0 ∧
      (handleJump nowMs dtMs k s).1.jumpCharge = s.jumpCharge - JUMP_CHARGE_COST) := by
  constructor
  · have hiff := handleJumpRest_doubleJump_iff nowMs k (bufferPress nowMs k s)
    rw [bufferPress_player, bufferPress_lastGroundedTime, bufferPress_isChargingJump,
        bufferPress_jumpCharge] at hiff
    unfold handleJump
    dsimp only
    simp only [bufferPress_isSliding, bufferPress_isChargingJump, bufferPress_player, hs,
      Bool.false_eq_true, if_false]
    split_ifs <;>
      first
      | exact hiff
      | (constructor <;> intro h <;> exfalso <;> simp_all)
  · intro hev
    obtain ⟨h1, -, h3, h4⟩ := (handleJump_event_effects nowMs dtMs k s 0).2.1 hev
    exact ⟨h3, h4, h1⟩

/-- Witness for C7 (Scenario C): airborne 200 ms past grounding, rising,
charge 60, double-jump cost 50 — the jump fires and the charge becomes 10. -/
theorem C7_double_jump_iff_witness :
    (handleJump 10000 10 keyPress airScene).2 = JEvent.doubleJump ∧
    (handleJump 10000 10 keyPress airScene).1.jumpCharge = 10 := by
  have h := C7_double_jump_iff 10000 10 keyPress airScene (by decide)
  have hev : (handleJump 10000 10 keyPress airScene).2 = JEvent.doubleJump :=
    h.1.mpr (by with_unfolding_all decide)
  refine ⟨hev, ?_⟩
  have := (h.2 hev).2.2
  rw [this]
  with_unfolding_all decide

/-! ## Claim C2: charge-jump scenario (200 ms hold) -/

set_option maxRecDepth 40000 in
/-- C2 counterexample: driving the full frame loop with a press at 10000 ms,
holds through 10190 ms and a release at 10200 ms (a 200 ms hold at 10 ms
frames, grounded on the floor, charge 100), the launch fires with
`chargeRatio = 2/75 ≈ 0.027`, not the claimed `min(0.2/1.5, 1) = 2/15 ≈
0.133`: the charge timer only starts accumulating once Charging begins,
150 ms after the hold began, so only ≈ 40 ms of hold count. -/
theorem C2_counterexample :
    chargeLaunchResult.2 = JEvent.chargeLaunch (2 / 75) ∧
    ¬((2 / 75 : ℚ) = min ((2 / 10) / CHARGE_JUMP_MAX_TIME) 1) ∧
    ¬(chargeLaunchResult.1.player.vy =
      CHARGE_JUMP_MIN_VELOCITY + (CHARGE_JUMP_MAX_VELOCITY - CHARGE_JUMP_MIN_VELOCITY) *
        min ((2 / 10) / CHARGE_JUMP_MAX_TIME) 1) := by
  with_unfolding_all decide

set_option maxRecDepth 40000 in
/-- C2 (amended): in the same 200 ms-hold scenario the charge jump launches
with `chargeRatio = min(chargeDuration/1.5, 1)` where `chargeDuration` is
only the time spent in the Charging state (0.04 s here: the hold's first
150 ms arm the hold-tracking threshold and do not count), the launch
velocity −408 lies between the configured max (−700) and min (−400)
charge-jump velocities, and the charge resource is set to exactly 0 at the
launch (the same frame's later recharge then adds RATE×dt as usual). -/
theorem C2_charge_scenario :
    chargeLaunchResult.2 = JEvent.chargeLaunch (min ((1 / 25) / CHARGE_JUMP_MAX_TIME) 1) ∧
    chargeLaunchResult.1.jumpCharge = 0 ∧
    chargeLaunchResult.1.player.vy = -408 ∧
    CHARGE_JUMP_MAX_VELOCITY ≤ chargeLaunchResult.1.player.vy ∧
    chargeLaunchResult.1.player.vy ≤ CHARGE_JUMP_MIN_VELOCITY := by
  with_unfolding_all decide

/-! ## Claim C3: left-boundary game over -/

/-- C3 counterexample: in variant B a player sitting fully past the left
boundary (x = −20 < −tileEdge) is NOT transitioned to GameOver by the frame
update — variant B registers no overlap callback, so its copy of
`handleCollision` (the only place the boundary is checked) is unreachable. -/
theorem C3_counterexample :
    offLeftScene.player.x < GAME_OVER_BOUNDARY ∧
    offLeftScene.isGameOver = false ∧
    (update 10000 10 keyNone [] offLeftScene).1.isGameOver = false := by
  with_unfolding_all decide

/-- C3 (amended): the `x < -tileEdge` check lives only inside variant A's
side-collision push handler: when a side contact pushes the player 2 px left
past the boundary, that handler does trigger game over. -/
theorem C3_boundary_in_side_push (g : Bool) (px py : ℚ) (o : Obst)
    (hg : g = false)
    (hside : o.y + 3 < py + TILE_SIZE / 2) (hright : o.x < px + TILE_SIZE / 2)
    (hpast : px - 2 < GAME_OVER_BOUNDARY) :
    (handleCollisionA g px py o).isGameOver = true ∧
    (handleCollisionA g px py o).x = px - 2 := by
  subst hg
  unfold handleCollisionA
  rw [if_neg Bool.false_ne_true]
  dsimp only
  rw [if_pos ⟨hside, hright⟩, if_pos hpast]
  exact ⟨rfl, rfl⟩

/-- Witness for C3 (amended): a push from x = −12 to −14 crosses the −13
boundary and flags game over. -/
theorem C3_boundary_in_side_push_witness :
    (handleCollisionA false (-12) 300 ⟨-100, 200⟩).isGameOver = true :=
  (C3_boundary_in_side_push false (-12) 300 ⟨-100, 200⟩ rfl
    (by with_unfolding_all decide) (by with_unfolding_all decide)
    (by with_unfolding_all decide)).1

/-! ## Claim C8: restart resets -/

/-- C8 counterexample: a restart from GameOver keeps the pre-restart
`jumpHoldStartTime` (here `some 5000`) and `lastGroundedTime` (here 7777),
while a fresh session starts with `none` and 0 — `restartGame` never resets
these two fields. -/
theorem C8_counterexample :
    gameOverScene.isGameOver = true ∧
    gameOverScene.jumpHoldStartTime = some 5000 ∧
    (update 10000 10 keyPress restartDraws gameOverScene).1.jumpHoldStartTime = some 5000 ∧
    (update 10000 10 keyPress restartDraws gameOverScene).1.lastGroundedTime = 7777 ∧
    (initScene restartDraws).1.jumpHoldStartTime = none ∧
    (initScene restartDraws).1.lastGroundedTime = 0 := by
  refine ⟨rfl, rfl, ?_, ?_, rfl, rfl⟩ <;>
    rw [update_gameOver_restart 10000 10 keyPress restartDraws gameOverScene rfl rfl] <;>
    rfl

/-- Every branch of `generateColumnB` increments `totalColumnsGenerated` by
exactly 1. -/
theorem generateColumnB_total (score : ℚ) (s : GenState) (d : List ℕ) :
    (generateColumnB score s d).2.1.totalColumnsGenerated =
      s.totalColumnsGenerated + 1 := by
  unfold generateColumnB
  dsimp only
  split_ifs <;> rfl

/-- The restart fill generates exactly `n` columns' worth of counter. -/
theorem genColumnsAux_total (n : ℕ) :
    ∀ (i : ℕ) (score : ℚ) (g : GenState) (d : List ℕ),
      (genColumnsAux n i score g d).2.1.totalColumnsGenerated =
        g.totalColumnsGenerated + n := by
  induction n with
  | zero => intro i score g d; rfl
  | succ n ih =>
    intro i score g d
    unfold genColumnsAux
    dsimp only
    rw [ih, generateColumnB_total]
    omega

/-- A restart's obstacle list, generation state and leftover draws come from
the ramped fill `restartFill` alone: `restartGame` clears the obstacle list
and resets the generation state before filling, so nothing of the
pre-restart scene feeds them. -/
theorem restartGame_components (draws : List ℕ) (s : Scene) :
    (restartGame draws s).1.obstacles = (restartFill draws).1 ∧
    (restartGame draws s).1.gen = (restartFill draws).2.1 ∧
    (restartGame draws s).2 = (restartFill draws).2.2 := by
  unfold restartGame genInitialColumns restartFill
  dsimp only
  rw [show (resetScene s).score = 0 from rfl,
      show (resetScene s).gen = initGenState from rfl,
      show (resetScene s).obstacles = [] from rfl]
  exact ⟨List.nil_append _, rfl, rfl⟩

set_option maxRecDepth 100000 in
/-- C8 (amended): a restart request in GameOver resets the score, world
offset, charge level, buffer timestamp, charge duration and the player's
position/velocity/rotation to the values a fresh `create()` assigns, and
rebuilds the obstacle set from scratch (the result is `restartFill draws`,
a function of the draw stream alone — the prior obstacle set is gone); but
`jumpHoldStartTime`, `lastGroundedTime` and `player.isGrounded` keep their
pre-restart values, and the generation bookkeeping does NOT return to its
session-initial values: the restart fill (ramped) ends with
`totalColumnsGenerated = 59` and `lastColumnX = 58 * pitch = 870`, whereas
`create()` returns with both equal to 0, because its counter assignments
run only after its (unramped) fill. -/
theorem C8_restart_resets (nowMs dtMs : ℚ) (k : KeyInput) (draws : List ℕ)
    (s : Scene) (h1 : s.isGameOver = true) (h2 : k.justDown = true) :
    ((update nowMs dtMs k draws s).1.isGameOver = false ∧
     (update nowMs dtMs k draws s).1.score = 0 ∧
     (update nowMs dtMs k draws s).1.worldX = 0 ∧
     (update nowMs dtMs k draws s).1.jumpCharge = JUMP_CHARGE_MAX ∧
     (update nowMs dtMs k draws s).1.jumpsUsed = 0 ∧
     (update nowMs dtMs k draws s).1.isChargingJump = false ∧
     (update nowMs dtMs k draws s).1.chargeJumpTime = 0 ∧
     (update nowMs dtMs k draws s).1.jumpBufferTime = 0 ∧
     (update nowMs dtMs k draws s).1.isSliding = false ∧
     (update nowMs dtMs k draws s).1.player.x = PLAYER_START_X ∧
     (update nowMs dtMs k draws s).1.player.y = CENTER_Y ∧
     (update nowMs dtMs k draws s).1.player.vx = 0 ∧
     (update nowMs dtMs k draws s).1.player.vy = 0 ∧
     (update nowMs dtMs k draws s).1.player.angle = 0 ∧
     (update nowMs dtMs k draws s).1.player.isRotating = false ∧
     (update nowMs dtMs k draws s).1.player.canDoubleJump = false ∧
     (update nowMs dtMs k draws s).1.obstacles = (restartFill draws).1 ∧
     (update nowMs dtMs k draws s).1.gen = (restartFill draws).2.1 ∧
     (update nowMs dtMs k draws s).2.1 = (restartFill draws).2.2) ∧
    ((update nowMs dtMs k draws s).1.jumpHoldStartTime = s.jumpHoldStartTime ∧
     (update nowMs dtMs k draws s).1.lastGroundedTime = s.lastGroundedTime ∧
     (update nowMs dtMs k draws s).1.player.isGrounded = s.player.isGrounded) ∧
    ((update nowMs dtMs k draws s).1.gen.totalColumnsGenerated = 59 ∧
     createBase.gen.totalColumnsGenerated = 0 ∧
     (update nowMs dtMs k draws s).1.lastColumnX = 58 * TILE_FULL_SIZE ∧
     createBase.lastColumnX = 0 ∧
     ¬ (59 : ℕ) = 0 ∧
     ¬ (58 * TILE_FULL_SIZE : ℚ) = 0) := by
  rw [update_gameOver_restart nowMs dtMs k draws s h1 h2]
  dsimp only
  obtain ⟨hobs, hgen, hdraws⟩ := restartGame_components draws s
  refine ⟨⟨rfl, rfl, rfl, rfl, rfl, rfl, rfl, rfl, rfl, rfl, rfl, rfl, rfl, rfl,
    rfl, rfl, hobs, hgen, hdraws⟩, ⟨rfl, rfl, rfl⟩,
    ?_, rfl, rfl, rfl, by decide, by with_unfolding_all decide⟩
  rw [hgen]
  unfold restartFill
  rw [genColumnsAux_total]
  decide

set_option maxRecDepth 100000 in
/-- Witness for C8 (amended) at a concrete game-over scene and draw stream. -/
theorem C8_restart_resets_witness :
    (update 10000 10 keyPress restartDraws gameOverScene).1.score = 0 ∧
    (update 10000 10 keyPress restartDraws gameOverScene).1.jumpHoldStartTime =
      gameOverScene.jumpHoldStartTime :=
  ⟨(C8_restart_resets 10000 10 keyPress restartDraws gameOverScene rfl rfl).1.2.1,
   (C8_restart_resets 10000 10 keyPress restartDraws gameOverScene rfl rfl).2.1.1⟩

/-! ## Claim C9: horizontal velocity -/

set_option maxRecDepth 40000 in
/-- C9 counterexample: on the tick the player transitions from airborne to
grounded (landing via the near-miss snap), a leftover horizontal velocity of
4 from a charge jump is NOT decayed to zero — landing never touches vx. -/
theorem C9_counterexample :
    landingScene.player.isGrounded = false ∧
    landingScene.player.vx = 4 ∧
    (update 10000 10 keyNone [] landingScene).1.player.isGrounded = true ∧
    (update 10000 10 keyNone [] landingScene).1.player.vx = 4 := by
  with_unfolding_all decide

/-- In the rest-handler the horizontal velocity is either untouched or set
to zero (double jump and both free ground jumps zero it). -/
theorem handleJumpRest_vx (nowMs : ℚ) (k : KeyInput) (s : Scene) :
    (handleJumpRest nowMs k s).1.player.vx = s.player.vx ∨
    (handleJumpRest nowMs k s).1.player.vx = 0 := by
  unfold handleJumpRest
  dsimp only
  cases hJ : s.jumpHoldStartTime <;> (try dsimp only) <;> split_ifs <;>
    first
    | (left; rfl)
    | (right; rfl)

/-- C9 (amended): (a) the jump handler changes vx only to 0 (ground/double
jumps) or to `CHARGE_JUMP_HORIZONTAL_VELOCITY × chargeRatio` at a
charge-jump launch — no other assignment exists; (b) landing does NOT decay
vx to zero: in a landing configuration the grounding resolver sets
`isGrounded` and preserves any vx unchanged. -/
theorem C9_vx_only_launch_and_no_landing_decay :
    (∀ (nowMs dtMs : ℚ) (k : KeyInput) (s : Scene),
      (handleJump nowMs dtMs k s).1.player.vx = s.player.vx ∨
      (handleJump nowMs dtMs k s).1.player.vx = 0 ∨
      (∃ r, (handleJump nowMs dtMs k s).2 = JEvent.chargeLaunch r ∧
        (handleJump nowMs dtMs k s).1.player.vx = CHARGE_JUMP_HORIZONTAL_VELOCITY * r)) ∧
    (∀ vx : ℚ,
      (checkGrounded 10000
          { landingScene with player := { landingScene.player with vx := vx } }).player.isGrounded
        = true ∧
      (checkGrounded 10000
          { landingScene with player := { landingScene.player with vx := vx } }).player.vx
        = vx) := by
  constructor
  · intro nowMs dtMs k s
    have hrest := handleJumpRest_vx nowMs k (bufferPress nowMs k s)
    rw [bufferPress_player] at hrest
    unfold handleJump
    dsimp only
    split_ifs <;> (try dsimp only) <;>
      first
      | (left; exact congrArg Player.vx (bufferPress_player nowMs k s))
      | (right; right; exact ⟨_, rfl, rfl⟩)
      | (exact hrest.elim Or.inl (fun h => Or.inr (Or.inl h)))
  · intro vx
    norm_num [checkGrounded, groundStep, triggerGameOver, landingScene, createBase,
      TILE_SIZE, SCREEN_HEIGHT, PLAYER_START_X, CENTER_Y, List.foldl]

end CommitDash
